import Mathlib

/-!
Verification of the generic JSON-to-model marshalling layer of the
python-bitpay-client SDK, together with its payout exception hierarchy and
the facade/token resolution step of the client.

Embedded from the source:
  * `RefundInfo` (src/bitpay/models/settlement/refund_info.py): the populate
    loop in `__init__` (convert each wire key to snake_case, coerce the value,
    dispatch to a setter, silently skip on a missing accessor), the class-level
    field declarations, the accessors, and `to_json`.
  * `PayoutException` and `PayoutCreationException`
    (src/bitpay/exceptions/): the message-prefixing constructors and the
    default error codes.

The supporting utilities `ModelUtil.get_field_value`, `ModelUtil.to_json` and
`change_camel_case_to_snake_case` live in files of the repository that are not
available here (src/bitpay/utils/); those definitions are modelled from the
specification, and each such definition carries a doc comment saying so.

JSON values are a standard inductive tree; wire mappings are ordered
association lists, matching insertion-ordered Python dicts. A populated model
instance is its instance dictionary: an ordered association list from
snake_case field names to stored values, absent keys meaning "never set".
-/

namespace BitPaySpec

/-- A decoded JSON value handed in or out by the transport collaborator:
object, array, string, number, boolean or null. Numbers are modelled as
integers (the claims under study only exercise integral numbers). -/
inductive Json where
  | null
  | bool (b : Bool)
  | num (n : Int)
  | str (s : String)
  | arr (elems : List Json)
  | obj (members : List (String × Json))

/-- Modelled from the spec: `change_camel_case_to_snake_case` in
src/bitpay/utils/key_utils.py is not among the available sources. The spec
says the WireKey to FieldName conversion is mechanical: "split on
uppercase-letter boundaries and acronym runs, lowercase, join with
underscore". A boundary falls before an uppercase character that either
follows a non-uppercase character or starts the last word of an acronym run
(an uppercase character followed by a lowercase one). -/
def snakeCore : Bool → List Char → List Char
  | _, [] => []
  | prevUpper, c :: rest =>
    let boundary := c.isUpper &&
      (!prevUpper || (match rest with | d :: _ => d.isLower | [] => false))
    (if boundary then ['_', c.toLower] else [c.toLower]) ++ snakeCore c.isUpper rest

/-- Modelled from the spec: WireKey to FieldName conversion (see `snakeCore`).
Examples fixed by the spec: "notificationURL" becomes "notification_url",
"buyerProvidedInfo" becomes "buyer_provided_info". -/
def change_camel_case_to_snake_case (s : String) : String :=
  match s.data with
  | [] => ""
  | c :: rest => String.mk (c.toLower :: snakeCore c.isUpper rest)

/-- Splits a character list at underscores into its snake_case words. -/
def splitWordsAux : List Char → List Char → List (List Char)
  | [], acc => [acc.reverse]
  | c :: rest, acc =>
    if c = '_' then acc.reverse :: splitWordsAux rest []
    else splitWordsAux rest (c :: acc)

/-- Modelled from the spec: a snake_case word that came from an acronym run is
restored to all uppercase by the renderer; the acronym example fixed by the spec is "URL"
("notificationURL" must render back from notification_url). -/
def isAcronymWord (w : List Char) : Bool := w = ['u', 'r', 'l']

/-- Modelled from the spec: capitalisation of one snake_case word when
rendering a FieldName back to a WireKey. -/
def capitalizeWord (w : List Char) : List Char :=
  if isAcronymWord w then w.map Char.toUpper
  else
    match w with
    | [] => []
    | c :: rest => c.toUpper :: rest

/-- Modelled from the spec: the FieldName to WireKey conversion
("inverse of the WireKey to FieldName conversion; must be a true inverse for
all supported name shapes"): keep the first underscore-separated word,
capitalise each later word (restoring acronym runs), and concatenate. -/
def change_snake_case_to_camel_case (s : String) : String :=
  match splitWordsAux s.data [] with
  | [] => ""
  | w :: ws => String.mk (w ++ (ws.map capitalizeWord).flatten)

/-- The per-model-type coercion declarations, as they appear at the
`ModelUtil.get_field_value(key, value, nested_types, dict_types)` call of a
`__init__` call of a model together with the set of snake_case field names that have
`set_` accessors on the model. `fields` lists the settable field names;
`nested` maps a wire key to the schema of the declared nested model type;
`dicts` lists wire keys hinted as explicit mappings ("dict"); `lists` maps a
wire key to the element schema of a list-of-nested-model field. -/
inductive Schema where
  | node (fields : List String) (nested : List (String × Schema))
      (dicts : List String) (lists : List (String × Schema)) : Schema

/-- Settable field names of a schema. -/
def Schema.fields : Schema → List String
  | .node f _ _ _ => f

/-- Nested-model coercion hints of a schema. -/
def Schema.nested : Schema → List (String × Schema)
  | .node _ n _ _ => n

/-- Explicit-mapping coercion hints of a schema. -/
def Schema.dicts : Schema → List String
  | .node _ _ d _ => d

/-- List-of-nested-model coercion hints of a schema. -/
def Schema.lists : Schema → List (String × Schema)
  | .node _ _ _ l => l

/-- A value stored in the field state of a model: either a JSON value kept as-is
(pass-through scalars and explicit mappings), a populated nested model
instance, or an ordered list of populated nested model instances. -/
inductive Value where
  | raw (j : Json)
  | nested (m : List (String × Value))
  | nestedList (ms : List (List (String × Value)))

/-- A populated model instance: its instance dictionary, an ordered mapping
from snake_case field names to stored values. A field that was never set is
absent. -/
abbrev Model := List (String × Value)

/-- Stores a value under a field name with Python instance-dictionary
semantics: an existing key keeps its position and gets the new value, a new
key is appended at the end. This is what `setattr` on the model does when a
`set_` accessor assigns the private attribute. -/
def setField : Model → String → Value → Model
  | [], f, w => [(f, w)]
  | (g, u) :: rest, f, w =>
    if g = f then (g, w) :: rest else (g, u) :: setField rest f w

mutual
/-- The populate loop of the `__init__` of a model
(`RefundInfo.__init__`, src/bitpay/models/settlement/refund_info.py): for each
wire key/value pair, coerce the value with `ModelUtil.get_field_value`, convert
the key to snake_case and dispatch to the `set_` accessor, silently skipping
the pair when the model has no such accessor (the `except AttributeError:
pass`). `acc` is the instance dictionary built so far. -/
def populateFrom (sch : Schema) (acc : Model) : List (String × Json) → Model
  | [] => acc
  | (k, v) :: rest =>
    let f := change_camel_case_to_snake_case k
    match get_field_value sch k v with
    | some w =>
      populateFrom sch (if f ∈ sch.fields then setField acc f w else acc) rest
    | none => populateFrom sch acc rest

/-- Modelled from the spec: `ModelUtil.get_field_value`
(src/bitpay/utils/model_util.py) is not among the available sources. Per the
Wire-to-Model Populator contract of the spec: an explicit-mapping hint stores the
raw value unchanged; a nested-model hint recursively populates the declared
nested model type from a JSON object and leaves the field unset on null (or on
a shape mismatch, taking the skip option of the spec); a list-of-nested-model hint
populates one nested instance per element of a JSON array, preserving order;
absent any hint the value passes through unchanged, null included. `none`
means the field is left unset. -/
def get_field_value (sch : Schema) (k : String) (v : Json) : Option Value :=
  if k ∈ sch.dicts then some (.raw v)
  else
    match sch.nested.lookup k with
    | some nsch =>
      match v with
      | .obj members => some (.nested (populateFrom nsch [] members))
      | _ => none
    | none =>
      match sch.lists.lookup k with
      | some esch =>
        match v with
        | .arr elems => some (.nestedList (populateElems esch elems))
        | _ => none
      | none => some (.raw v)

/-- Modelled from the spec: list-of-nested-model coercion, applying the
nested-model algorithm to every element of the incoming sequence in order
(elements that are not JSON objects are skipped, the skip option of the spec for
shape mismatches). -/
def populateElems (esch : Schema) : List Json → List Model
  | [] => []
  | .obj members :: rest => populateFrom esch [] members :: populateElems esch rest
  | _ :: rest => populateElems esch rest
end

/-- Populates a fresh model instance of the given schema from a wire mapping:
the model constructor called with the decoded JSON object as keyword
arguments. -/
def populate (sch : Schema) (wire : List (String × Json)) : Model :=
  populateFrom sch [] wire

mutual
/-- Modelled from the spec: `ModelUtil.to_json`
(src/bitpay/utils/model_util.py) is not among the available sources. Per the
Model-to-Wire Renderer contract of the spec: enumerate only the fields that have
been explicitly set, in the order they were first set, convert each field name
back to its wire key, render nested models and lists of nested models
recursively, and insert scalars and explicit mappings as-is. -/
def renderFields : Model → List (String × Json)
  | [] => []
  | (f, w) :: rest =>
    (change_snake_case_to_camel_case f, renderValue w) :: renderFields rest

/-- Renders one stored value back to JSON (see `renderFields`). -/
def renderValue : Value → Json
  | .raw j => j
  | .nested m => .obj (renderFields m)
  | .nestedList ms => .arr (renderModels ms)

/-- Renders a stored list of nested model instances in order (see
`renderFields`). -/
def renderModels : List Model → List Json
  | [] => []
  | m :: rest => .obj (renderFields m) :: renderModels rest
end

/-- The `to_json` of a model: render the instance back to a wire mapping. -/
def to_json (m : Model) : List (String × Json) := renderFields m

/-- Reads a field of a model instance the way a `get_` accessor does: the
stored value when the field has been set, otherwise the class-level default
`None` (every field of `RefundInfo` is declared `= None` at class level, so an
accessor on a fresh instance falls back to it). -/
def getField (m : Model) (f : String) : Value :=
  (m.lookup f).getD (.raw .null)

namespace RefundInfo

/-- The schema of `RefundInfo`
(src/bitpay/models/settlement/refund_info.py): settable fields
support_request, currency and amounts; no nested-model hints; the explicit
call `ModelUtil.get_field_value(key, value, {}, {"amounts": "dict"})` hints
amounts as an explicit mapping; no list hints. -/
def schema : Schema := .node ["support_request", "currency", "amounts"] [] ["amounts"] []

/-- `RefundInfo(**kwargs)`: populate a fresh instance from a wire mapping. -/
def init (wire : List (String × Json)) : Model := populate schema wire

/-- `RefundInfo.get_support_request`. -/
def get_support_request (m : Model) : Value := getField m "support_request"

/-- `RefundInfo.set_support_request`: assigns the private attribute. -/
def set_support_request (m : Model) (v : Value) : Model :=
  setField m "support_request" v

/-- `RefundInfo.get_currency`. -/
def get_currency (m : Model) : Value := getField m "currency"

/-- `RefundInfo.get_amounts`. -/
def get_amounts (m : Model) : Value := getField m "amounts"

end RefundInfo

namespace InvoiceLike

/-- Modelled from the spec: the Buyer-like nested model of the end-to-end
scenario (src/bitpay/models/invoice/, not among the available sources), with
a name accessor. -/
def buyerSchema : Schema := .node ["name", "email"] [] [] []

/-- Modelled from the spec: the Invoice-like model of the end-to-end scenario
(src/bitpay/models/invoice/invoice.py, not among the available sources): a
guid pass-through field and a buyerProvidedInfo field hinted as a nested
model. -/
def schema : Schema :=
  .node ["guid", "buyer_provided_info"] [("buyerProvidedInfo", buyerSchema)] [] []

end InvoiceLike

namespace Bill

/-- Modelled from the spec: the Item nested model
(src/bitpay/models/bill/item.py, not among the available sources), as used by
the bill tests: description, price and quantity accessors. -/
def itemSchema : Schema := .node ["description", "price", "quantity"] [] [] []

/-- Modelled from the spec: the Bill model (src/bitpay/models/bill/bill.py,
not among the available sources), restricted to the fields the bill tests
exercise; items is hinted as a list of nested Item models. -/
def schema : Schema :=
  .node ["number", "currency", "email", "items"] [] [] [("items", itemSchema)]

end Bill

/-- The state of an exception object as far as the claims are concerned: the
message finally stored and the numeric error code. -/
structure BitPayExceptionState where
  message : String
  code : Int

/-- Modelled from the spec: the base `BitPayException`
(src/bitpay/exceptions/bitpay_exception.py, not among the available sources)
is one of one of the simple typed exceptions of the SDK: it stores the message and code
it is constructed with. -/
def BitPayException_init (message : String) (code : Int) : BitPayExceptionState :=
  ⟨message, code⟩

/-- Default error code of `PayoutException.__init__`
(src/bitpay_sdk/exceptions/payout_exception.py, parameter default
`code=121`). -/
def PayoutException_default_code : Int := 121

/-- `PayoutException.__init__`
(src/bitpay_sdk/exceptions/payout_exception.py): prepends its own bitpay code
and generic message, then delegates to the base constructor. -/
def PayoutException_init (message : String) (code : Int) : BitPayExceptionState :=
  BitPayException_init
    ("BITPAY-PAYOUT-GENERIC" ++ ": "
      ++ "An unexpected error occurred while trying to manage the payout"
      ++ ":" ++ message)
    code

/-- Default error code of `PayoutCreationException.__init__`
(src/bitpay/exceptions/payout_creation_exception.py, parameter default
`code=122`). -/
def PayoutCreationException_default_code : Int := 122

/-- `PayoutCreationException.__init__`
(src/bitpay/exceptions/payout_creation_exception.py): prepends its own bitpay
code and message, then delegates to `PayoutException.__init__`. -/
def PayoutCreationException_init (message : String) (code : Int) :
    BitPayExceptionState :=
  PayoutException_init
    ("BITPAY-PAYOUT-CREATE" ++ ": " ++ "Failed to create payout" ++ ":" ++ message)
    code

/-- The closed set of facade identifiers (spec section 4.3; the tests
exercise merchant, payout and point-of-sale). -/
inductive Facade where
  | merchant
  | payout
  | pointOfSale
deriving DecidableEq

/-- Typed failures a client operation can raise before reaching the
transport. -/
inductive ClientError where
  | billUpdateException (message : String)

/-- Modelled from the spec: `TokenContainer.get_access_token`: lookup(facade)
to credential string; absent means no credential for that facade. -/
def TokenContainer.lookup (tokens : List (Facade × String)) (f : Facade) :
    Option String :=
  (tokens.find? (fun p => p.1 = f)).map Prod.snd

/-- Modelled from the spec: `Client.update_bill` (src/bitpay/client.py, not
among the available sources). Facade resolution runs first: with no merchant
credential the operation raises a `BillUpdateException`-typed failure before
any network call; with a credential it renders the bill and invokes the
transport once. The returned flag counts whether the transport was invoked. -/
def Client.update_bill (tokens : List (Facade × String))
    (transport : List (String × Json) → Json) (bill : Model) :
    Except ClientError Json × Bool :=
  match TokenContainer.lookup tokens Facade.merchant with
  | none => (.error (.billUpdateException "failed to retrieve token"), false)
  | some tok =>
    (.ok (transport (to_json bill ++ [("token", .str tok)])), true)

/-- The entries of a wire mapping whose converted field name has a settable
accessor on the target schema: exactly the entries the populate loop does not
skip. -/
def knownEntries (sch : Schema) (M : List (String × Json)) : List (String × Json) :=
  M.filter fun p => decide (change_camel_case_to_snake_case p.1 ∈ sch.fields)

/-- A wire mapping for `RefundInfo` with two known keys and one unknown key. -/
def demoWire : List (String × Json) :=
  [("supportRequest", .str "help"), ("currency", .str "USD"), ("unknownThing", .num 1)]

/-- A wire mapping whose two distinct keys both convert to the field name
currency, so the second setter call overwrites the first stored value. -/
def collidingWire : List (String × Json) :=
  [("currency", .str "USD"), ("Currency", .str "EUR")]

/-- The literal wire mapping of the end-to-end scenario. -/
def invoiceWire : List (String × Json) :=
  [("guid", .str "g1"), ("buyerProvidedInfo", .obj [("name", .str "Marcin")])]

/-- The accessor returning the nested buyer-provided-info model instance of an
Invoice-like model (an empty instance when the field is unset or holds a
non-nested value). -/
def get_buyer_provided_info (m : Model) : Model :=
  match getField m "buyer_provided_info" with
  | .nested b => b
  | _ => []

/-- The wire form of the first bill item of the bill tests. -/
def item1Wire : List (String × Json) :=
  [("description", .str "Test Item 1"), ("price", .num 6), ("quantity", .num 1)]

/-- The wire form of the second bill item of the bill tests. -/
def item2Wire : List (String × Json) :=
  [("description", .str "Test Item 2"), ("price", .num 4), ("quantity", .num 1)]

/-- A bill wire mapping carrying two items, in order. -/
def billWire : List (String × Json) :=
  [("number", .str "bill1234-ABCD"),
   ("items", .arr [.obj item1Wire, .obj item2Wire])]

/-- Every coercion of `RefundInfo` stores the incoming JSON value as-is: the
amounts field is hinted as an explicit mapping and the remaining fields have
no hint, so they pass through; there are no nested or list hints. -/
theorem refund_gfv (k : String) (v : Json) :
    get_field_value RefundInfo.schema k v = some (.raw v) := by
  by_cases h : k ∈ (RefundInfo.schema).dicts <;>
    simp [get_field_value, h, RefundInfo.schema, Schema.dicts, Schema.nested, Schema.lists]

/-- Setting a field that is not yet in the instance dictionary appends it. -/
theorem setField_eq_append (f : String) (w : Value) :
    ∀ (m : Model), f ∉ m.map Prod.fst → setField m f w = m ++ [(f, w)]
  | [], _ => rfl
  | (g, u) :: rest, h => by
    have hg : g ≠ f := fun he => h (by rw [he]; exact List.mem_cons_self _ _)
    have ht : f ∉ rest.map Prod.fst := fun hx => h (List.mem_cons_of_mem _ hx)
    simp only [setField, if_neg hg, List.cons_append]
    exact congrArg _ (setField_eq_append f w rest ht)

/-- A field name absent from the instance dictionary has no stored value. -/
theorem lookup_eq_none_of_not_mem (f : String) :
    ∀ (m : Model), f ∉ m.map Prod.fst → m.lookup f = none
  | [], _ => rfl
  | (g, u) :: rest, h => by
    have hg : (f == g) = false := by
      refine beq_eq_false_iff_ne.mpr fun he => h ?_
      rw [he]; exact List.mem_cons_self _ _
    have ht : f ∉ rest.map Prod.fst := fun hx => h (List.mem_cons_of_mem _ hx)
    simp [List.lookup, hg, lookup_eq_none_of_not_mem f rest ht]

/-- Rendering a field list whose values are all stored as-is converts each
field name back to its wire key and keeps each value. -/
theorem renderFields_map_raw (g : String × Json → String) :
    ∀ (l : List (String × Json)),
      renderFields (l.map fun p => (g p, Value.raw p.2)) =
        l.map fun p => (change_snake_case_to_camel_case (g p), p.2)
  | [] => rfl
  | p :: rest => by
    simp only [List.map_cons, renderFields, renderValue]
    exact congrArg _ (renderFields_map_raw g rest)

/-- The rendered wire keys are exactly the stored field names, converted, in
order: rendering emits one entry per explicitly set field and nothing else. -/
theorem renderFields_keys :
    ∀ (m : Model),
      (renderFields m).map Prod.fst = m.map fun p => change_snake_case_to_camel_case p.1
  | [] => rfl
  | (f, w) :: rest => by
    simp only [renderFields, List.map_cons]
    exact congrArg _ (renderFields_keys rest)

/-- Characterisation of the `RefundInfo` populate loop: when the known keys of
the remaining wire entries convert to field names that are pairwise distinct
and not already in the accumulator, the loop appends exactly the known
entries, converted, in wire order. -/
theorem refund_populateFrom_eq :
    ∀ (M : List (String × Json)) (acc : Model),
      (∀ p ∈ M, change_camel_case_to_snake_case p.1 ∈ (RefundInfo.schema).fields →
        change_camel_case_to_snake_case p.1 ∉ acc.map Prod.fst) →
      (((knownEntries RefundInfo.schema M).map
        fun p => change_camel_case_to_snake_case p.1).Nodup) →
      populateFrom RefundInfo.schema acc M =
        acc ++ (knownEntries RefundInfo.schema M).map
          (fun p => (change_camel_case_to_snake_case p.1, Value.raw p.2))
  | [], acc, _, _ => by simp [populateFrom, knownEntries]
  | (k, v) :: rest, acc, hacc, hnd => by
    by_cases hf : change_camel_case_to_snake_case k ∈ (RefundInfo.schema).fields
    · have hke : knownEntries RefundInfo.schema ((k, v) :: rest) =
          (k, v) :: knownEntries RefundInfo.schema rest := by
        simp [knownEntries, List.filter_cons, hf]
      have hnotacc : change_camel_case_to_snake_case k ∉ acc.map Prod.fst :=
        hacc (k, v) (List.mem_cons_self _ _) hf
      have hset : setField acc (change_camel_case_to_snake_case k) (Value.raw v) =
          acc ++ [(change_camel_case_to_snake_case k, Value.raw v)] :=
        setField_eq_append _ _ acc hnotacc
      rw [hke] at hnd
      simp only [List.map_cons, List.nodup_cons] at hnd
      have step : populateFrom RefundInfo.schema acc ((k, v) :: rest) =
          populateFrom RefundInfo.schema
            (setField acc (change_camel_case_to_snake_case k) (Value.raw v)) rest := by
        simp only [populateFrom, refund_gfv, if_pos hf]
      rw [step, hset]
      rw [refund_populateFrom_eq rest _ ?hs hnd.2]
      · rw [hke]
        simp [List.append_assoc]
      case hs =>
        intro p hp hkp
        simp only [List.map_append, List.map_cons, List.map_nil]
        intro hmem
        rcases List.mem_append.mp hmem with hl | hr
        · exact hacc p (List.mem_cons_of_mem _ hp) hkp hl
        · simp only [List.mem_singleton] at hr
          apply hnd.1
          rw [← hr]
          exact List.mem_map.mpr ⟨p, List.mem_filter.mpr ⟨hp, by simpa using hkp⟩, rfl⟩
    · have hke : knownEntries RefundInfo.schema ((k, v) :: rest) =
          knownEntries RefundInfo.schema rest := by
        simp [knownEntries, List.filter_cons, hf]
      have step : populateFrom RefundInfo.schema acc ((k, v) :: rest) =
          populateFrom RefundInfo.schema acc rest := by
        simp only [populateFrom, refund_gfv, if_neg hf]
      rw [step, hke]
      exact refund_populateFrom_eq rest acc
        (fun p hp => hacc p (List.mem_cons_of_mem _ hp)) (by rwa [hke] at hnd)

/-- A wire entry whose converted field name has no settable accessor changes
nothing: the populate loop reaches the same state with or without it. -/
theorem populateFrom_skip_unknown (sch : Schema) (k : String) (v : Json)
    (hk : change_camel_case_to_snake_case k ∉ sch.fields) :
    ∀ (M N : List (String × Json)) (acc : Model),
      populateFrom sch acc (M ++ (k, v) :: N) = populateFrom sch acc (M ++ N)
  | [], N, acc => by
    simp only [List.nil_append]
    cases hg : get_field_value sch k v with
    | none => simp only [populateFrom, hg]
    | some w => simp only [populateFrom, hg, if_neg hk]
  | (k', v') :: M, N, acc => by
    simp only [List.cons_append]
    cases hg : get_field_value sch k' v' with
    | none =>
      simp only [populateFrom, hg]
      exact populateFrom_skip_unknown sch k v hk M N acc
    | some w =>
      simp only [populateFrom, hg]
      exact populateFrom_skip_unknown sch k v hk M N _

/-- Populating `RefundInfo` from a wire mapping and rendering it back yields
exactly the known entries of the mapping, provided the known keys round-trip
through the name conversion and convert to pairwise-distinct field names. -/
theorem refund_to_json_eq (M : List (String × Json))
    (h1 : ∀ p ∈ M, change_camel_case_to_snake_case p.1 ∈ (RefundInfo.schema).fields →
      change_snake_case_to_camel_case (change_camel_case_to_snake_case p.1) = p.1)
    (h2 : ((knownEntries RefundInfo.schema M).map
      fun p => change_camel_case_to_snake_case p.1).Nodup) :
    to_json (RefundInfo.init M) = knownEntries RefundInfo.schema M := by
  have hpop := refund_populateFrom_eq M [] (by intro p hp hk; simp) h2
  unfold RefundInfo.init populate to_json
  rw [hpop]
  simp only [List.nil_append]
  rw [renderFields_map_raw (fun p => change_camel_case_to_snake_case p.1)]
  have hcg : ∀ p ∈ knownEntries RefundInfo.schema M,
      (change_snake_case_to_camel_case (change_camel_case_to_snake_case p.1), p.2) =
        id p := by
    intro p hp
    have hm := List.mem_filter.mp hp
    have hr := h1 p hm.1 (by simpa using hm.2)
    simp [hr]
  rw [List.map_congr_left hcg, List.map_id]

/-- Mapping the list coercion over a sequence of JSON objects populates one
nested instance per element, in order. -/
theorem populateElems_map_obj (esch : Schema) :
    ∀ (objs : List (List (String × Json))),
      populateElems esch (objs.map Json.obj) = objs.map fun o => populate esch o
  | [] => rfl
  | o :: objs => by
    simp only [List.map_cons, populateElems, populate]
    exact congrArg _ (populateElems_map_obj esch objs)

/-- Rendering a stored list of nested models yields one JSON object per
stored instance. -/
theorem renderModels_length : ∀ (ms : List Model), (renderModels ms).length = ms.length
  | [] => rfl
  | m :: rest => by simp [renderModels, renderModels_length rest]

/-- Claim C1 (amended): for a `RefundInfo` instance populated from a wire
mapping M whose known keys round-trip through the name conversion and convert
to pairwise-distinct field names, rendering it back yields a wire mapping in
which every entry of M with a known accessor appears unchanged, and which
contains no entries outside the known-accessor entries of M. -/
theorem claim_C1_known_round_trip (M : List (String × Json))
    (h1 : ∀ p ∈ M, change_camel_case_to_snake_case p.1 ∈ (RefundInfo.schema).fields →
      change_snake_case_to_camel_case (change_camel_case_to_snake_case p.1) = p.1)
    (h2 : ((knownEntries RefundInfo.schema M).map
      fun p => change_camel_case_to_snake_case p.1).Nodup) :
    (∀ k v, (k, v) ∈ M → change_camel_case_to_snake_case k ∈ (RefundInfo.schema).fields →
      (k, v) ∈ to_json (RefundInfo.init M)) ∧
    (∀ k v, (k, v) ∈ to_json (RefundInfo.init M) →
      (k, v) ∈ M ∧ change_camel_case_to_snake_case k ∈ (RefundInfo.schema).fields) := by
  rw [refund_to_json_eq M h1 h2]
  constructor
  · intro k v hm hk
    exact List.mem_filter.mpr ⟨hm, by simpa using hk⟩
  · intro k v hm
    have h := List.mem_filter.mp hm
    exact ⟨h.1, by simpa using h.2⟩

/-- Witness for claim C1: the amended round trip at a concrete wire mapping
with two known keys and one unknown key. -/
theorem claim_C1_known_round_trip_witness :
    (∀ k v, (k, v) ∈ demoWire →
      change_camel_case_to_snake_case k ∈ (RefundInfo.schema).fields →
      (k, v) ∈ to_json (RefundInfo.init demoWire)) ∧
    (∀ k v, (k, v) ∈ to_json (RefundInfo.init demoWire) →
      (k, v) ∈ demoWire ∧ change_camel_case_to_snake_case k ∈ (RefundInfo.schema).fields) :=
  claim_C1_known_round_trip demoWire (by decide) (by decide)

/-- Counterexample to claim C1 as stated: in the wire mapping
collidingWire the two distinct keys currency and Currency both convert to the
field name currency, which has a known accessor; the second setter call
overwrites the first stored value, so the key currency of the mapping does not
appear in the rendered mapping with its original value. -/
theorem claim_C1_as_stated_counterexample :
    ("currency", Json.str "USD") ∈ collidingWire ∧
    change_camel_case_to_snake_case "currency" ∈ (RefundInfo.schema).fields ∧
    ("currency", Json.str "USD") ∉ to_json (RefundInfo.init collidingWire) := by
  refine ⟨List.mem_cons_self _ _, by decide, ?_⟩
  rw [show to_json (RefundInfo.init collidingWire) =
    [("currency", Json.str "EUR")] from rfl]
  simp

/-- Claim C2: a wire key whose converted field name has no settable accessor
is silently ignored: populating with the unknown entry inserted yields the
same instance state, hence the same accessor values, as populating without
it. -/
theorem claim_C2_unknown_key_ignored (sch : Schema) (M N : List (String × Json))
    (k : String) (v : Json)
    (hk : change_camel_case_to_snake_case k ∉ sch.fields) :
    populate sch (M ++ (k, v) :: N) = populate sch (M ++ N) ∧
    ∀ f, getField (populate sch (M ++ (k, v) :: N)) f =
      getField (populate sch (M ++ N)) f := by
  have h := populateFrom_skip_unknown sch k v hk M N []
  exact ⟨h, fun f => by unfold populate; rw [h]⟩

/-- Witness for claim C2: extending a concrete refund-info wire mapping with
the entry totallyUnknownKey does not change the populated state. -/
theorem claim_C2_unknown_key_ignored_witness :
    populate RefundInfo.schema
        ([("currency", Json.str "USD")] ++ ("totallyUnknownKey", Json.num 1) :: []) =
      populate RefundInfo.schema ([("currency", Json.str "USD")] ++ []) ∧
    ∀ f, getField (populate RefundInfo.schema
        ([("currency", Json.str "USD")] ++ ("totallyUnknownKey", Json.num 1) :: [])) f =
      getField (populate RefundInfo.schema ([("currency", Json.str "USD")] ++ [])) f :=
  claim_C2_unknown_key_ignored RefundInfo.schema
    [("currency", Json.str "USD")] [] "totallyUnknownKey" (Json.num 1) (by decide)

/-- Claim C3: the name conversion round-trips on the supported shapes fixed by
the spec: notificationURL converts to notification_url and renders back, and
buyerProvidedInfo converts to buyer_provided_info and renders back; in
general, populating `RefundInfo` from a wire mapping whose known keys
round-trip and convert to pairwise-distinct field names and rendering it back
reproduces exactly the original wire keys of the fields that were set. -/
theorem claim_C3_name_conversion_round_trip (M : List (String × Json))
    (h1 : ∀ p ∈ M, change_camel_case_to_snake_case p.1 ∈ (RefundInfo.schema).fields →
      change_snake_case_to_camel_case (change_camel_case_to_snake_case p.1) = p.1)
    (h2 : ((knownEntries RefundInfo.schema M).map
      fun p => change_camel_case_to_snake_case p.1).Nodup) :
    change_camel_case_to_snake_case "notificationURL" = "notification_url" ∧
    change_snake_case_to_camel_case "notification_url" = "notificationURL" ∧
    change_camel_case_to_snake_case "buyerProvidedInfo" = "buyer_provided_info" ∧
    change_snake_case_to_camel_case "buyer_provided_info" = "buyerProvidedInfo" ∧
    (to_json (RefundInfo.init M)).map Prod.fst =
      (knownEntries RefundInfo.schema M).map Prod.fst :=
  ⟨rfl, rfl, rfl, rfl, congrArg (List.map Prod.fst) (refund_to_json_eq M h1 h2)⟩

/-- Witness for claim C3: the rendered wire keys of a concrete populated
instance are exactly the original known wire keys. -/
theorem claim_C3_name_conversion_round_trip_witness :
    change_camel_case_to_snake_case "notificationURL" = "notification_url" ∧
    change_snake_case_to_camel_case "notification_url" = "notificationURL" ∧
    change_camel_case_to_snake_case "buyerProvidedInfo" = "buyer_provided_info" ∧
    change_snake_case_to_camel_case "buyer_provided_info" = "buyerProvidedInfo" ∧
    (to_json (RefundInfo.init demoWire)).map Prod.fst =
      (knownEntries RefundInfo.schema demoWire).map Prod.fst :=
  claim_C3_name_conversion_round_trip demoWire (by decide) (by decide)

/-- Claim C4: outbound rendering emits exactly the fields that have been
explicitly set and never invents defaults: a fresh model with only the label
field set renders to the single-entry mapping label, the rendered keys of any
instance are exactly its stored field names converted in order, and an empty
instance renders to an empty mapping. -/
theorem claim_C4_render_only_set_fields :
    (∀ v : Json, to_json (setField [] "label" (Value.raw v)) = [("label", v)]) ∧
    (∀ m : Model, (to_json m).map Prod.fst =
      m.map fun p => change_snake_case_to_camel_case p.1) ∧
    to_json ([] : Model) = [] :=
  ⟨fun _ => rfl, renderFields_keys, rfl⟩

/-- Claim C5: populating an Invoice-like model from the literal wire mapping
invoiceWire yields guid g1, the nested buyer-provided-info instance answers
Marcin for name, and rendering reproduces the original mapping. -/
theorem claim_C5_end_to_end_invoice :
    getField (populate InvoiceLike.schema invoiceWire) "guid" = .raw (.str "g1") ∧
    getField (get_buyer_provided_info (populate InvoiceLike.schema invoiceWire)) "name" =
      .raw (.str "Marcin") ∧
    to_json (populate InvoiceLike.schema invoiceWire) = invoiceWire :=
  ⟨rfl, rfl, rfl⟩

/-- Claim C6: when facade resolution finds no merchant credential, updating a
bill fails with a BillUpdateException-typed error before any network call: the
transport is never invoked. -/
theorem claim_C6_missing_token_no_network (tokens : List (Facade × String))
    (transport : List (String × Json) → Json) (bill : Model)
    (h : TokenContainer.lookup tokens Facade.merchant = none) :
    Client.update_bill tokens transport bill =
      (.error (.billUpdateException "failed to retrieve token"), false) := by
  unfold Client.update_bill
  rw [h]

/-- Witness for claim C6: an empty token store makes update_bill fail without
invoking the transport. -/
theorem claim_C6_missing_token_no_network_witness :
    Client.update_bill [] (fun _ => Json.null) [] =
      (.error (.billUpdateException "failed to retrieve token"), false) :=
  claim_C6_missing_token_no_network [] (fun _ => Json.null) [] rfl

/-- Claim C7: a field that was never set is absent from the instance
dictionary, so it has no stored value, while explicitly setting it to null
records it there: the two states are distinguishable even though pass-through
coercion stores null unchanged. -/
theorem claim_C7_unset_field_absent (m : Model) (f : String)
    (h : f ∉ m.map Prod.fst) :
    m.lookup f = none ∧
    f ∈ (setField m f (Value.raw .null)).map Prod.fst ∧
    setField m f (Value.raw .null) ≠ m ∧
    get_field_value RefundInfo.schema "currency" .null = some (.raw .null) := by
  refine ⟨lookup_eq_none_of_not_mem f m h, ?_, ?_, refund_gfv "currency" .null⟩
  · rw [setField_eq_append f _ m h]; simp
  · intro he
    apply h
    rw [← he, setField_eq_append f _ m h]; simp

/-- Witness for claim C7: on a fresh `RefundInfo` instance the
support_request field is absent until set, and setting it to null changes the
state. -/
theorem claim_C7_unset_field_absent_witness :
    ([] : Model).lookup "support_request" = none ∧
    "support_request" ∈ (setField [] "support_request" (Value.raw .null)).map Prod.fst ∧
    setField ([] : Model) "support_request" (Value.raw .null) ≠ [] ∧
    get_field_value RefundInfo.schema "currency" .null = some (.raw .null) :=
  claim_C7_unset_field_absent [] "support_request" (by simp)

/-- Claim C8: the amounts field of `RefundInfo`, hinted as an explicit
mapping, stores an incoming JSON object as the raw mapping without promotion,
and the getter returns that same raw mapping. -/
theorem claim_C8_dict_hint_raw_mapping (members : List (String × Json)) :
    get_field_value RefundInfo.schema "amounts" (.obj members) =
      some (.raw (.obj members)) ∧
    RefundInfo.init [("amounts", .obj members)] =
      [("amounts", .raw (.obj members))] ∧
    RefundInfo.get_amounts (RefundInfo.init [("amounts", .obj members)]) =
      .raw (.obj members) :=
  ⟨rfl, rfl, rfl⟩

/-- Claim C9: the list-of-nested-model coercion populates one nested instance
per element in the original order, rendering preserves the length, and the
concrete bill populated with two items keeps Test Item 2 as its second item
and renders back to the original mapping. -/
theorem claim_C9_nested_list_order :
    (∀ (esch : Schema) (objs : List (List (String × Json))),
      populateElems esch (objs.map Json.obj) = objs.map fun o => populate esch o) ∧
    (∀ (ms : List Model), (renderModels ms).length = ms.length) ∧
    getField (populate Bill.schema billWire) "items" =
      .nestedList [populate Bill.itemSchema item1Wire, populate Bill.itemSchema item2Wire] ∧
    getField (populate Bill.itemSchema item2Wire) "description" =
      .raw (.str "Test Item 2") ∧
    to_json (populate Bill.schema billWire) = billWire :=
  ⟨populateElems_map_obj, renderModels_length, rfl, rfl, rfl⟩

/-- Claim C10: constructing a payout-creation exception prefixes the message
first with the subclass code and message, then with the superclass code and
message, yielding exactly the documented double prefix, with default error
code 122, while the payout exception alone defaults to code 121. -/
theorem claim_C10_payout_exception_message (m : String) :
    (PayoutCreationException_init m PayoutCreationException_default_code).message =
      "BITPAY-PAYOUT-GENERIC: An unexpected error occurred while trying to manage the payout:BITPAY-PAYOUT-CREATE: Failed to create payout:" ++ m ∧
    PayoutCreationException_init m PayoutCreationException_default_code =
      PayoutException_init
        ("BITPAY-PAYOUT-CREATE: Failed to create payout:" ++ m)
        PayoutCreationException_default_code ∧
    (PayoutCreationException_init m PayoutCreationException_default_code).code = 122 ∧
    PayoutCreationException_default_code = 122 ∧
    PayoutException_default_code = 121 ∧
    (PayoutException_init m PayoutException_default_code).code = 121 :=
  ⟨rfl, rfl, rfl, rfl, rfl, rfl⟩

end BitPaySpec
